import Mathlib

/-!
Verification development for the normalization core of pyscraper
(src/pyscraper/scrape.py). The Python functions are shallowly embedded as
executable Lean definitions: pandas timestamps become calendar dates,
raised exceptions become none or Except.error, and floating point cell
values are abstracted as rationals (every numeric literal appearing in the
claims is exactly representable).
-/

namespace Pyscraper

/-- Calendar date: year, month (1 to 12), day. -/
structure Date where
  year : Nat
  month : Nat
  day : Nat
deriving DecidableEq, Repr

/-- Leap year test of the Gregorian calendar. -/
def isLeapYear (y : Nat) : Bool :=
  (y % 4 == 0 && y % 100 != 0) || (y % 400 == 0)

/-- Number of days in a month of a given year. -/
def daysInMonth (y m : Nat) : Nat :=
  if m == 2 then (if isLeapYear y then 29 else 28)
  else if m == 4 || m == 6 || m == 9 || m == 11 then 30
  else 31

/-- Validity of a calendar date. -/
def dateValid (d : Date) : Bool :=
  decide (1 ≤ d.month) && decide (d.month ≤ 12) &&
    decide (1 ≤ d.day) && decide (d.day ≤ daysInMonth d.year d.month)

/-- Numeric key realising the lexicographic order on dates. -/
def Date.key (d : Date) : Nat := d.year * 10000 + d.month * 100 + d.day

/-- Key of the earliest midnight representable by a pandas Timestamp
(Timestamp.min is 1677-09-21 00:12, so the first whole midnight is
1677-09-22). -/
def tsMinKey : Nat := Date.key ⟨1677, 9, 22⟩

/-- Key of the date of Timestamp.max, 2262-04-11. -/
def tsMaxKey : Nat := Date.key ⟨2262, 4, 11⟩

/-- Whether a midnight timestamp at this date is representable in the
nanosecond range of pandas; outside it, timestamp construction raises. -/
def inTsBounds (d : Date) : Bool :=
  decide (tsMinKey ≤ d.key) && decide (d.key ≤ tsMaxKey)

/-- Quarter end number k of the frequency Q-DEC: quarter ends fall on
March 31, June 30, September 30 and December 31; number k lies in year
k / 4 at quarter k % 4. -/
def quarterEnd (k : Nat) : Date :=
  let m := 3 * (k % 4) + 3
  ⟨k / 4, m, if m == 6 || m == 9 then 30 else 31⟩

/-- Number of the first Q-DEC quarter end on or after a valid date: the
end of the quarter containing its month. pd.date_range rolls a start that
is not on the frequency anchor forward to the next anchor. -/
def firstQuarterEndFrom (d : Date) : Nat :=
  4 * d.year + ((d.month + 2) / 3 - 1)

/-- Dates generated by pd.date_range(start, periods = n, freq = Q-DEC):
n consecutive Q-DEC quarter ends beginning at the first one on or after
the start date. -/
def dateRangeQDEC (start : Date) (n : Nat) : List Date :=
  (List.range n).map (fun i => quarterEnd (firstQuarterEndFrom start + i))

/-- Numeric value of a digit character. -/
def digitVal (c : Char) : Nat := c.toNat - 48

/-- Numeric value of a string of digit characters. -/
def digitsVal (cs : List Char) : Nat :=
  cs.foldl (fun a c => 10 * a + digitVal c) 0

/-- Helper for pySplit: walk the characters, accumulating the current
piece in reverse. -/
def splitWsGo : List Char → List Char → List String
  | [], cur => if cur.isEmpty then [] else [String.mk cur.reverse]
  | c :: rest, cur =>
    if c.isWhitespace then
      if cur.isEmpty then splitWsGo rest []
      else String.mk cur.reverse :: splitWsGo rest []
    else splitWsGo rest (c :: cur)

/-- Python str.split() with no arguments: split on runs of whitespace,
dropping empty pieces. -/
def pySplit (s : String) : List String := splitWsGo s.data []

/-- Helper for splitOnSlash: walk the characters, accumulating the
current piece in reverse. -/
def splitSlashGo : List Char → List Char → List String
  | [], cur => [String.mk cur.reverse]
  | c :: rest, cur =>
    if c == '/' then String.mk cur.reverse :: splitSlashGo rest []
    else splitSlashGo rest (c :: cur)

/-- Split of a string at every slash, keeping empty pieces, as
str.split of a one character separator does. -/
def splitOnSlash (s : String) : List String := splitSlashGo s.data []

/-- Numeric value of a token made only of digits; anything else is
rejected (none). -/
def toNatDigits (s : String) : Option Nat :=
  if !s.data.isEmpty && s.data.all Char.isDigit then some (digitsVal s.data)
  else none

/-- Python str.upper(), applied characterwise. -/
def pyUpper (s : String) : String := String.mk (s.data.map Char.toUpper)

/-- Traversal of a list by a fallible elementwise conversion that raises
on the first failure, as pd.to_datetime with errors raise or astype do. -/
def mapOrRaise {α β : Type} (f : α → Option β) : List α → Option (List β)
  | [] => some []
  | a :: l =>
    match f a, mapOrRaise f l with
    | some b, some bs => some (b :: bs)
    | _, _ => none

/-- Python int() applied to a one character string, as in the source
expression int(thedate[1][-1]): a digit gives its value, anything else
raises (none). -/
def charDigit (c : Char) : Option Nat :=
  if c.isDigit then some (digitVal c) else none

/-- Model of pandas Timestamp parsing of a three part slash date string,
the shape produced by the caller in scrape.py. dateutil with its default
dayfirst = False reads the first number as the month whenever it can be
one, and swaps only when the first number exceeds 12 while the second does
not. Non numeric parts, invalid dates and dates outside the pandas range
raise (none). -/
def pdTimestampSlash (s : String) : Option Date :=
  match splitOnSlash s with
  | [ms, ds, ys] =>
    match toNatDigits ms, toNatDigits ds, toNatDigits ys with
    | some a, some b, some y =>
      let p := if decide (13 ≤ a) && decide (b ≤ 12) then (b, a) else (a, b)
      let dt : Date := ⟨y, p.1, p.2⟩
      if dateValid dt && inTsBounds dt then some dt else none
    | _, _, _ => none
  | _ => none

/-- Embedding of _create_quarterly_index from scrape.py. It splits only
the FIRST label on whitespace, takes 3 times the final digit character of
the second token as starting_quarter, takes the first token as
starting_year, builds the string 1/starting_quarter/starting_year, parses
that as a Timestamp, and generates len(labels) Q-DEC quarter ends from
there. Indexing, int() and Timestamp failures, and generated dates beyond
the pandas range, raise (none). -/
def create_quarterly_index (labels : List String) : Option (List Date) := do
  let first ← labels.head?
  let thedate := pySplit first
  let tok ← thedate[1]?
  let c ← tok.data.getLast?
  let q ← charDigit c
  let startingQuarter := 3 * q
  let startingYear ← thedate[0]?
  let start ← pdTimestampSlash ("1/" ++ toString startingQuarter ++ "/" ++ startingYear)
  let dates := dateRangeQDEC start labels.length
  if dates.all inTsBounds then some dates else none

/-- Model of pandas to_datetime with format %Y and errors raise on one
label: strptime %Y consumes exactly four digits and the whole string must
be consumed; the unfilled month and day default to 1, so the result is
January 1 of the year. A year whose January 1 lies outside the pandas
range raises. -/
def toDatetimeY (s : String) : Option Date :=
  match s.data with
  | [c1, c2, c3, c4] =>
    if c1.isDigit && c2.isDigit && c3.isDigit && c4.isDigit then
      let d : Date := ⟨digitsVal [c1, c2, c3, c4], 1, 1⟩
      if inTsBounds d then some d else none
    else none
  | _ => none

/-- Upper case month abbreviations of the C locale, as matched by
strptime %b. -/
def monthAbbrev : List String :=
  ["JAN", "FEB", "MAR", "APR", "MAY", "JUN",
   "JUL", "AUG", "SEP", "OCT", "NOV", "DEC"]

/-- Position of a string in a list of strings. -/
def monthIndex : List String → String → Option Nat
  | [], _ => none
  | a :: rest, s => if s = a then some 0 else (monthIndex rest s).map (· + 1)

/-- Month number of a three letter abbreviation; strptime %b matching is
case insensitive. -/
def monthFromAbbrev (s : String) : Option Nat :=
  (monthIndex monthAbbrev (pyUpper s)).map (· + 1)

/-- Model of pandas to_datetime with format %Y %b and errors raise on one
label: four digits, then whitespace (a space in a strptime format matches
a run of whitespace), then a month abbreviation consuming the rest of the
string; the unfilled day defaults to 1, so the result is the first day of
the literal year and month. -/
def toDatetimeYb (s : String) : Option Date :=
  match s.data with
  | c1 :: c2 :: c3 :: c4 :: c5 :: rest =>
    if (c1.isDigit && c2.isDigit && c3.isDigit && c4.isDigit) && c5.isWhitespace then
      match monthFromAbbrev (String.mk (rest.dropWhile Char.isWhitespace)) with
      | some m =>
        let d : Date := ⟨digitsVal [c1, c2, c3, c4], m, 1⟩
        if inTsBounds d then some d else none
      | none => none
    else none
  | _ => none

/-- Index of the dataframe produced by _timeseries_index: reconstructed
dates, or the labels untouched when the frequency is none of Q, M, A. -/
inductive PIndex
  | dates (ds : List Date)
  | labelIdx (ls : List String)
deriving DecidableEq, Repr

/-- Embedding of _timeseries_index from scrape.py, acting on the label
column (which set_index has made the index). The Q branch calls
_create_quarterly_index; the M and A branches parse every label
independently with pd.to_datetime and errors raise; any parse failure
raises, modelled as Except.error. With any other frequency the index is
left as the labels. -/
def timeseries_index (labels : List String) (freq : String) : Except String PIndex :=
  if freq = "Q" then
    match create_quarterly_index labels with
    | some ds => .ok (.dates ds)
    | none => .error "ValueError"
  else if freq = "M" then
    match mapOrRaise toDatetimeYb labels with
    | some ds => .ok (.dates ds)
    | none => .error "ValueError"
  else if freq = "A" then
    match mapOrRaise toDatetimeY labels with
    | some ds => .ok (.dates ds)
    | none => .error "ValueError"
  else .ok (.labelIdx labels)

/-- The three regular expressions of re_dict in from_ONS, as tags. patQ
stands for four digits, space, Q, digit, dollar; patA for four digits,
dollar; patM for four digits, space, three upper case letters, dollar. -/
inductive RePat
  | patQ
  | patA
  | patM
deriving DecidableEq, Repr

/-- The character class A to Z of the monthly regular expression. -/
def isUpperAZ (c : Char) : Bool := decide ('A' ≤ c) && decide (c ≤ 'Z')

/-- Full match of the core of a pattern (everything before the dollar
anchor) against an entire character list. -/
def coreMatches : RePat → List Char → Bool
  | .patQ, [d1, d2, d3, d4, sp, qc, d5] =>
    d1.isDigit && d2.isDigit && d3.isDigit && d4.isDigit &&
      (sp == ' ') && (qc == 'Q') && d5.isDigit
  | .patA, [d1, d2, d3, d4] =>
    d1.isDigit && d2.isDigit && d3.isDigit && d4.isDigit
  | .patM, [d1, d2, d3, d4, sp, l1, l2, l3] =>
    d1.isDigit && d2.isDigit && d3.isDigit && d4.isDigit &&
      (sp == ' ') && isUpperAZ l1 && isUpperAZ l2 && isUpperAZ l3
  | _, _ => false

/-- Model of re.search with an end anchored pattern, as used by
Series.str.contains: the pattern may begin anywhere, and the dollar forces
the match to reach the end, so some suffix of the string is a full match
of the core. -/
def searchEnd (p : RePat) (s : String) : Bool :=
  s.data.tails.any (coreMatches p)

/-- The dictionary re_dict of from_ONS. A key outside Q, A, M raises a
KeyError, modelled as none. -/
def re_dict (freq : String) : Option RePat :=
  if freq = "Q" then some .patQ
  else if freq = "A" then some .patA
  else if freq = "M" then some .patM
  else none

/-- Python cell value as found in the dataframe: a string, a float
(abstracted as a rational), or an int. -/
inductive PyVal
  | VStr (s : String)
  | VFloat (q : ℚ)
  | VInt (n : ℤ)
deriving DecidableEq, Repr

/-- Exponent part of a Python float literal: nothing (exponent zero), or
the letter e followed by an optional sign and at least one digit. -/
def pyExpVal (cs : List Char) : Option Int :=
  match cs with
  | [] => some 0
  | e :: t =>
    if e == 'e' || e == 'E' then
      match t with
      | '-' :: u =>
        if !u.isEmpty && u.all Char.isDigit then some (-(digitsVal u : Int)) else none
      | '+' :: u =>
        if !u.isEmpty && u.all Char.isDigit then some ((digitsVal u : Int)) else none
      | u =>
        if !u.isEmpty && u.all Char.isDigit then some ((digitsVal u : Int)) else none
    else none

/-- Exact rational value of a decimal literal with sign, integer digits,
fraction digits and decimal exponent. -/
def ratOfParts (sgn : Int) (ip fp : List Char) (ex : Int) : ℚ :=
  let base : Int := sgn * ((digitsVal ip * 10 ^ fp.length + digitsVal fp : Nat) : Int)
  if 0 ≤ ex then mkRat (base * ((10 ^ ex.toNat : Nat) : Int)) (10 ^ fp.length)
  else mkRat base (10 ^ fp.length * 10 ^ (-ex).toNat)

/-- Model of the Python builtin float() on decimal literals: surrounding
whitespace, an optional sign, digits with an optional fractional part (at
least one digit overall), and an optional exponent. The value is computed
exactly over the rationals; the special spellings inf and nan and digit
group underscores are outside the fragment this source feeds to float().
Failure (ValueError) is none. -/
def pyFloat (s : String) : Option ℚ :=
  let cs := ((s.data.dropWhile Char.isWhitespace).reverse.dropWhile Char.isWhitespace).reverse
  let p : Int × List Char :=
    match cs with
    | '-' :: t => (-1, t)
    | '+' :: t => (1, t)
    | _ => (1, cs)
  let ip := p.2.takeWhile Char.isDigit
  let r1 := p.2.dropWhile Char.isDigit
  match r1 with
  | [] => if ip.isEmpty then none else some (ratOfParts p.1 ip [] 0)
  | '.' :: r2 =>
    let fp := r2.takeWhile Char.isDigit
    let r3 := r2.dropWhile Char.isDigit
    if ip.isEmpty && fp.isEmpty then none
    else
      match pyExpVal r3 with
      | some ex => some (ratOfParts p.1 ip fp ex)
      | none => none
  | _ =>
    if ip.isEmpty then none
    else
      match pyExpVal r1 with
      | some ex => some (ratOfParts p.1 ip [] ex)
      | none => none

/-- Python str.replace of commas by the empty string. -/
def stripCommas (s : String) : String :=
  String.mk (s.data.filter (fun c => c != ','))

/-- Embedding of float_convert from scrape.py. A str has its commas
removed and goes through float(), whose failure on malformed text raises
a ValueError, modelled as Except.error. A float passes through unchanged.
Any other value reaches the else branch, which prints the encountered
type and falls off the function, returning None, modelled as ok none. -/
def float_convert (s : PyVal) : Except String (Option ℚ) :=
  match s with
  | .VStr str =>
    match pyFloat (stripCommas str) with
    | some q => .ok (some q)
    | none => .error "ValueError"
  | .VFloat q => .ok (some q)
  | .VInt _ => .ok none

/-- Row of the decoded ONS csv: the cell of the label column Unnamed: 0
(none models NaN) and the remaining cells in column order. -/
structure Row where
  label : Option String
  cells : List PyVal
deriving DecidableEq, Repr

/-- The boolean criterion of from_ONS: str.contains of the frequency
pattern on the label column, with na = False sending NaN labels to
False. -/
def onsCriterion (p : RePat) (r : Row) : Bool :=
  match r.label with
  | some s => searchEnd p s
  | none => false

/-- Rows kept by the boolean indexing dfraw[criterion], in original
order. -/
def onsFiltered (table : List Row) (p : RePat) : List Row :=
  table.filter (onsCriterion p)

/-- Model of DataFrame.astype(float) on one object cell: a float stays, an
int widens, a string must be a plain float literal (astype does not strip
commas), and anything failing raises. -/
def astypeFloat (v : PyVal) : Option ℚ :=
  match v with
  | .VFloat q => some q
  | .VInt n => some (n : ℚ)
  | .VStr s => pyFloat s

/-- Outcome of from_ONS as seen by its caller: the KeyError raised by
re_dict on an unknown frequency, the None return after the no data
message, an exception raised during index reconstruction or the float
cast, or the final dataframe with its reconstructed index and float
values. -/
inductive ONSResult
  | keyError
  | noData
  | raised (msg : String)
  | series (index : PIndex) (values : List (List ℚ))
deriving DecidableEq, Repr

/-- Embedding of from_ONS from scrape.py, taken from the point where the
downloaded csv has been decoded into a table (retrieval and csv decoding
are the out of scope collaborators). The frequency is uppercased, the
pattern is looked up in re_dict, rows are kept by str.contains on the
label column, an empty selection prints the no data message and returns
None, and otherwise the index is reconstructed and all cells are cast to
float. -/
def from_ONS (table : List Row) (freq : String) : ONSResult :=
  match re_dict (pyUpper freq) with
  | none => .keyError
  | some pat =>
    let filtered := onsFiltered table pat
    if filtered.isEmpty then .noData
    else
      match timeseries_index (filtered.filterMap (fun r => r.label)) (pyUpper freq) with
      | .error e => .raised e
      | .ok idx =>
        match mapOrRaise (fun r => mapOrRaise astypeFloat r.cells) filtered with
        | some vals => .series idx vals
        | none => .raised "ValueError"

/-- Pandas panel as produced by to_panel(): items (the variable codes),
major axis (the entities), minor axis (the years), and a lookup of values
by labels. -/
structure Panel where
  items : List String
  major : List String
  minor : List String
  val : String → String → String → Option ℚ

/-- Selection of a list of labels on one axis, as panel.loc receives it:
the labels of the request that are present on the axis, in request order.
The policy of the era pandas for labels absent from the axis (reindexing
with missing values, or a KeyError, depending on version) is deliberately
not settled here; no theorem below depends on it. -/
def locAxis (axis : List String) (keys : List String) : List String :=
  keys.filter (fun k => axis.contains k)

/-- Embedding of the selection tail of from_IMF (after the dataset has
been fetched and reshaped): with neither series nor countries the raw
panel itself is returned; a series list narrows the items axis, a country
list narrows the major axis, and both narrow both. -/
def from_IMF (rawdata : Panel) (series countries : Option (List String)) : Panel :=
  match series, countries with
  | none, none => rawdata
  | none, some cs => { rawdata with major := locAxis rawdata.major cs }
  | some ss, none => { rawdata with items := locAxis rawdata.items ss }
  | some ss, some cs =>
    { rawdata with items := locAxis rawdata.items ss, major := locAxis rawdata.major cs }

/-- Declarative reading of re.search with an end anchored pattern: the
string splits into a prefix followed by a full match of the pattern
core. -/
def SuffixMatch (p : RePat) (s : String) : Prop :=
  ∃ a b : List Char, s.data = a ++ b ∧ coreMatches p b = true

/-- Literal year and month read off a well formed monthly label, used to
state what the monthly reconstruction produces. -/
def monthlyDate (l : String) : Date :=
  ⟨digitsVal (l.data.take 4), (monthFromAbbrev (String.mk (l.data.drop 5))).getD 0, 1⟩

/-- Helper: a raising traversal that succeeds pointwise succeeds globally
with the mapped list. -/
theorem mapOrRaise_eq_map {α β : Type} (f : α → Option β) (g : α → β) :
    ∀ l : List α, (∀ a ∈ l, f a = some (g a)) → mapOrRaise f l = some (l.map g) := by
  intro l
  induction l with
  | nil => intro _; rfl
  | cons x xs ih =>
    intro h
    have hx := h x (List.mem_cons_self x xs)
    have hxs := ih (fun a ha => h a (List.mem_cons_of_mem x ha))
    simp [mapOrRaise, hx, hxs]

/-- Helper: a well shaped monthly label parses to the first day of its
literal year and month. -/
theorem toDatetimeYb_eq (l : String) (c1 c2 c3 c4 a1 a2 a3 : Char) (m : Nat)
    (hd : l.data = [c1, c2, c3, c4, ' ', a1, a2, a3])
    (hdig : (c1.isDigit && c2.isDigit && c3.isDigit && c4.isDigit) = true)
    (hws : a1.isWhitespace = false)
    (hm : monthFromAbbrev (String.mk [a1, a2, a3]) = some m)
    (hb : inTsBounds ⟨digitsVal [c1, c2, c3, c4], m, 1⟩ = true) :
    toDatetimeYb l = some (monthlyDate l) := by
  have hsp : (' ' : Char).isWhitespace = true := by decide
  unfold toDatetimeYb monthlyDate
  rw [hd]
  simp [hdig, hws, hsp, hm, hb, List.dropWhile_cons]

/-- C1 (code bug): evaluated at the spec example, a first label 2002 Q2
with four filtered rows, the quarterly index builder returns four quarter
ends starting at 2002-03-31, not at 2002-06-30 as the claim states: the
constructed start string 1/6/2002 is parsed month first as January 6, so
the quarter digit never moves the start out of the first quarter of the
year. -/
theorem quarterly_index_2002Q2_starts_march :
    create_quarterly_index ["2002 Q2", "2002 Q3", "2002 Q4", "2003 Q1"] =
      some [⟨2002, 3, 31⟩, ⟨2002, 6, 30⟩, ⟨2002, 9, 30⟩, ⟨2002, 12, 31⟩] ∧
    (some [⟨2002, 3, 31⟩, ⟨2002, 6, 30⟩, ⟨2002, 9, 30⟩, ⟨2002, 12, 31⟩] : Option (List Date)) ≠
      some [⟨2002, 6, 30⟩, ⟨2002, 9, 30⟩, ⟨2002, 12, 31⟩, ⟨2003, 3, 31⟩] :=
  ⟨by decide, by decide⟩

/-- C2 (counterexample): the annual label 2002 is reconstructed to
January 1, 2002 and not to December 31, 2002, refuting the year end
convention of the claim. -/
theorem annual_2002_jan1_not_dec31 :
    timeseries_index ["2002"] "A" = .ok (.dates [⟨2002, 1, 1⟩]) ∧
    (⟨2002, 1, 1⟩ : Date) ≠ ⟨2002, 12, 31⟩ :=
  ⟨rfl, by decide⟩

/-- C2 (amended): every four digit annual label whose year admits a
pandas timestamp is parsed, independently of the other rows, to
January 1 of that year. -/
theorem annual_reconstruction_jan1 (labels : List String)
    (h : ∀ l ∈ labels, ∃ c1 c2 c3 c4 : Char, l.data = [c1, c2, c3, c4] ∧
      (c1.isDigit && c2.isDigit && c3.isDigit && c4.isDigit) = true ∧
      inTsBounds ⟨digitsVal [c1, c2, c3, c4], 1, 1⟩ = true) :
    timeseries_index labels "A" =
      .ok (.dates (labels.map (fun l => (⟨digitsVal l.data, 1, 1⟩ : Date)))) := by
  have hm : mapOrRaise toDatetimeY labels =
      some (labels.map (fun l => (⟨digitsVal l.data, 1, 1⟩ : Date))) := by
    apply mapOrRaise_eq_map
    intro l hl
    obtain ⟨c1, c2, c3, c4, hd, hdig, hb⟩ := h l hl
    unfold toDatetimeY
    rw [hd]
    simp [hdig, hb]
  unfold timeseries_index
  rw [if_neg (by decide), if_neg (by decide), if_pos rfl, hm]

/-- C2 (witness): the amended annual statement applied to the labels 2002
and 2013. -/
theorem annual_reconstruction_jan1_w :
    timeseries_index ["2002", "2013"] "A" =
      .ok (.dates (["2002", "2013"].map (fun l => (⟨digitsVal l.data, 1, 1⟩ : Date)))) :=
  annual_reconstruction_jan1 ["2002", "2013"] (by
    intro l hl
    rw [List.mem_cons, List.mem_singleton] at hl
    rcases hl with rfl | rfl
    · exact ⟨'2', '0', '0', '2', by decide, by decide, by decide⟩
    · exact ⟨'2', '0', '1', '3', by decide, by decide, by decide⟩)

/-- C3 (counterexample): the monthly label 2002 JAN is reconstructed to
January 1, 2002 and not to January 31, 2002, refuting the end of month
convention of the claim. -/
theorem monthly_2002JAN_day1_not_day31 :
    timeseries_index ["2002 JAN"] "M" = .ok (.dates [⟨2002, 1, 1⟩]) ∧
    (⟨2002, 1, 1⟩ : Date) ≠ ⟨2002, 1, 31⟩ :=
  ⟨rfl, by decide⟩

/-- C3 (amended): every label of the monthly shape, four digits, a space
and a three letter month abbreviation, with a representable year and
month, is parsed independently to the FIRST day of its literal year and
month. -/
theorem monthly_reconstruction_day1 (labels : List String)
    (h : ∀ l ∈ labels, ∃ (c1 c2 c3 c4 a1 a2 a3 : Char) (m : Nat),
      l.data = [c1, c2, c3, c4, ' ', a1, a2, a3] ∧
      (c1.isDigit && c2.isDigit && c3.isDigit && c4.isDigit) = true ∧
      a1.isWhitespace = false ∧
      monthFromAbbrev (String.mk [a1, a2, a3]) = some m ∧
      inTsBounds ⟨digitsVal [c1, c2, c3, c4], m, 1⟩ = true) :
    timeseries_index labels "M" = .ok (.dates (labels.map monthlyDate)) := by
  have hm : mapOrRaise toDatetimeYb labels = some (labels.map monthlyDate) := by
    apply mapOrRaise_eq_map
    intro l hl
    obtain ⟨c1, c2, c3, c4, a1, a2, a3, m, hd, hdig, hws, hmm, hb⟩ := h l hl
    exact toDatetimeYb_eq l c1 c2 c3 c4 a1 a2 a3 m hd hdig hws hmm hb
  unfold timeseries_index
  rw [if_neg (by decide), if_pos rfl, hm]

/-- C3 (witness): the amended monthly statement applied to the label
1999 DEC. -/
theorem monthly_reconstruction_day1_w :
    timeseries_index ["1999 DEC"] "M" = .ok (.dates (["1999 DEC"].map monthlyDate)) :=
  monthly_reconstruction_day1 ["1999 DEC"] (by
    intro l hl
    rw [List.mem_singleton] at hl
    subst hl
    exact ⟨'1', '9', '9', '9', 'D', 'E', 'C', 12, by decide, by decide,
      by decide, by decide, by decide⟩)

/-- Helper: the boolean search of an end anchored pattern holds exactly
when the string splits into a prefix and a full match of the core. -/
theorem searchEnd_iff (p : RePat) (s : String) :
    searchEnd p s = true ↔ SuffixMatch p s := by
  unfold searchEnd SuffixMatch
  rw [List.any_eq_true]
  constructor
  · rintro ⟨t, ht, hc⟩
    rw [List.mem_tails] at ht
    obtain ⟨a, ha⟩ := ht
    exact ⟨a, t, ha.symm, hc⟩
  · rintro ⟨a, b, hab, hc⟩
    exact ⟨b, (List.mem_tails b s.data).mpr ⟨a, hab.symm⟩, hc⟩

/-- C4 (counterexample): the filter is wider than the claim in both
respects. Under the annual frequency it keeps the label AB2013, which is
not made of four digits only, because the pattern is anchored at the end
but not at the start. Under the quarterly frequency it keeps 2002 Q5,
although the claim allows only the quarter digits 1 through 4, because
the regex body is Q followed by any digit. Under the monthly frequency it
keeps 2002 XYZ, although XYZ is not a month abbreviation (the last
conjunct shows %b rejects it), because the regex body is any three upper
case letters. -/
theorem rowfilter_keeps_unanchored_label :
    re_dict "A" = some RePat.patA ∧
    onsFiltered [⟨some "AB2013", [PyVal.VFloat 1]⟩] RePat.patA =
      [⟨some "AB2013", [PyVal.VFloat 1]⟩] ∧
    coreMatches RePat.patA "AB2013".data = false ∧
    re_dict "Q" = some RePat.patQ ∧
    onsFiltered [⟨some "2002 Q5", [PyVal.VFloat 1]⟩] RePat.patQ =
      [⟨some "2002 Q5", [PyVal.VFloat 1]⟩] ∧
    re_dict "M" = some RePat.patM ∧
    onsFiltered [⟨some "2002 XYZ", [PyVal.VFloat 1]⟩] RePat.patM =
      [⟨some "2002 XYZ", [PyVal.VFloat 1]⟩] ∧
    monthFromAbbrev "XYZ" = none := by
  refine ⟨rfl, by decide, by decide, rfl, by decide, rfl, by decide, by decide⟩

/-- C4 (amended): the row filter keeps, in original order, exactly the
rows whose label ENDS with a full match of the frequency pattern of the
source regexes (re.search of an end anchored regular expression), whose
bodies are wider than the claim states: quarterly is four digits, space,
Q and ANY digit, and monthly is four digits, space, ANY three upper case
letters. Labels with extra leading characters before a matching suffix
are kept as well, and NaN labels are dropped. -/
theorem rowfilter_end_anchored (table : List Row) (freq : String) (pat : RePat) (r : Row)
    (h : re_dict (pyUpper freq) = some pat) :
    (onsFiltered table pat).Sublist table ∧
    (r ∈ onsFiltered table pat ↔
      r ∈ table ∧ ∃ s, r.label = some s ∧ SuffixMatch pat s) := by
  refine ⟨List.filter_sublist table, ?_⟩
  unfold onsFiltered
  rw [List.mem_filter]
  constructor
  · rintro ⟨hr, hc⟩
    refine ⟨hr, ?_⟩
    unfold onsCriterion at hc
    cases hl : r.label with
    | none => rw [hl] at hc; cases hc
    | some s => rw [hl] at hc; exact ⟨s, rfl, (searchEnd_iff pat s).mp hc⟩
  · rintro ⟨hr, s, hl, hsm⟩
    refine ⟨hr, ?_⟩
    unfold onsCriterion
    rw [hl]
    exact (searchEnd_iff pat s).mpr hsm

/-- C4 (witness): the amended filter statement applied to a one row table
with the label AB2013 and the annual frequency given in lower case. -/
theorem rowfilter_end_anchored_w :
    (onsFiltered [⟨some "AB2013", []⟩] RePat.patA).Sublist [⟨some "AB2013", []⟩] ∧
    ((⟨some "AB2013", []⟩ : Row) ∈ onsFiltered [⟨some "AB2013", []⟩] RePat.patA ↔
      (⟨some "AB2013", []⟩ : Row) ∈ [(⟨some "AB2013", []⟩ : Row)] ∧
        ∃ s, (⟨some "AB2013", []⟩ : Row).label = some s ∧ SuffixMatch RePat.patA s) :=
  rowfilter_end_anchored [⟨some "AB2013", []⟩] "a" RePat.patA ⟨some "AB2013", []⟩ (by decide)

/-- C5 (confirmed): when the pattern of the requested frequency matches
no row of the table, from_ONS returns the distinguished noData outcome,
which is different from every series, from every raised error and from
the lookup failure. -/
theorem from_ONS_no_match_noData (table : List Row) (freq : String) (pat : RePat)
    (idx : PIndex) (vals : List (List ℚ)) (msg : String)
    (h1 : re_dict (pyUpper freq) = some pat)
    (h2 : ∀ r ∈ table, onsCriterion pat r = false) :
    from_ONS table freq = .noData ∧
    ONSResult.noData ≠ .series idx vals ∧
    ONSResult.noData ≠ .raised msg ∧
    ONSResult.noData ≠ .keyError := by
  have he : onsFiltered table pat = [] := by
    unfold onsFiltered
    rw [List.filter_eq_nil_iff]
    intro a ha
    simp [h2 a ha]
  refine ⟨?_, by simp, by simp, by simp⟩
  unfold from_ONS
  rw [h1]
  simp [he]

/-- C5 (witness): requesting the annual frequency from a table holding
only quarterly labels returns noData. -/
theorem from_ONS_no_match_noData_w :
    from_ONS [⟨some "2002 Q2", [PyVal.VFloat 1]⟩, ⟨some "2002 Q3", [PyVal.VFloat 2]⟩] "A" =
      .noData ∧
    ONSResult.noData ≠ .series (.dates []) [] ∧
    ONSResult.noData ≠ .raised "x" ∧
    ONSResult.noData ≠ .keyError :=
  from_ONS_no_match_noData
    [⟨some "2002 Q2", [PyVal.VFloat 1]⟩, ⟨some "2002 Q3", [PyVal.VFloat 2]⟩]
    "A" RePat.patA (.dates []) [] "x" (by decide) (by decide)

/-- C6 (counterexample): the int cell 3 is numeric but is not passed
through unchanged: it falls to the unexpected type branch and becomes the
could not convert marker. -/
theorem float_convert_int_not_passthrough :
    float_convert (.VInt 3) = .ok none ∧
    (Except.ok none : Except String (Option ℚ)) ≠ .ok (some (3 : ℚ)) :=
  ⟨rfl, by simp⟩

/-- C6 (amended): a float cell passes through float_convert unchanged,
and a textual cell has its thousands separator commas stripped and the
remainder parsed as a float, so the text 1,234.5 yields 1234.5; only
float instances enjoy the numeric pass through. -/
theorem float_convert_float_and_text :
    (∀ q : ℚ, float_convert (.VFloat q) = .ok (some q)) ∧
    float_convert (.VStr "1,234.5") = .ok (some (mkRat 2469 2)) :=
  ⟨fun _ => rfl, by
    have h : pyFloat (stripCommas "1,234.5") = some (mkRat 2469 2) := by decide
    simp [float_convert, h]⟩

/-- C7 (counterexample): on the malformed text abc, float_convert raises
a ValueError instead of returning the unparseable marker, refuting the
claim that it never raises on inputs that cannot be converted. -/
theorem float_convert_text_raises :
    float_convert (.VStr "abc") = .error "ValueError" ∧
    (Except.error "ValueError" : Except String (Option ℚ)) ≠ .ok none :=
  ⟨rfl, by simp⟩

/-- C7 (amended): float_convert degrades without raising only for values
that are neither text nor floats: such a cell is reported and becomes the
explicit could not convert marker; malformed text instead raises a parse
error that aborts the enclosing build. -/
theorem float_convert_other_type_marker (v : PyVal)
    (h1 : ∀ s, v ≠ .VStr s) (h2 : ∀ q, v ≠ .VFloat q) :
    float_convert v = .ok none := by
  cases v with
  | VStr s => exact absurd rfl (h1 s)
  | VFloat q => exact absurd rfl (h2 q)
  | VInt n => rfl

/-- C7 (witness): the amended statement applied to the int cell 7. -/
theorem float_convert_other_type_marker_w :
    float_convert (.VInt 7) = .ok none :=
  float_convert_other_type_marker (.VInt 7)
    (fun _ h => PyVal.noConfusion h) (fun _ h => PyVal.noConfusion h)

/-- C8 (confirmed): selecting with no series and no countries returns the
raw panel itself, equal in every axis and every value. -/
theorem from_IMF_no_selection_identity (p : Panel) (c e t : String) :
    from_IMF p none none = p ∧
    (from_IMF p none none).items = p.items ∧
    (from_IMF p none none).major = p.major ∧
    (from_IMF p none none).minor = p.minor ∧
    (from_IMF p none none).val c e t = p.val c e t :=
  ⟨rfl, rfl, rfl, rfl, rfl⟩

/-- C10 (confirmed): a frequency whose upper case form is none of A, Q, M
makes from_ONS fail with the KeyError of the re_dict lookup, independent
of the table, so it is raised before any row filtering and the call
returns neither a series nor the noData outcome. -/
theorem from_ONS_unknown_freq_keyError (table : List Row) (freq : String)
    (idx : PIndex) (vals : List (List ℚ))
    (h1 : pyUpper freq ≠ "A") (h2 : pyUpper freq ≠ "Q") (h3 : pyUpper freq ≠ "M") :
    from_ONS table freq = .keyError ∧
    ONSResult.keyError ≠ .noData ∧
    ONSResult.keyError ≠ .series idx vals := by
  have hd : re_dict (pyUpper freq) = none := by
    unfold re_dict
    rw [if_neg h2, if_neg h1, if_neg h3]
  refine ⟨?_, by simp, by simp⟩
  unfold from_ONS
  rw [hd]

/-- C10 (witness): the lookup failure applied to the frequency z over a
one row table. -/
theorem from_ONS_unknown_freq_keyError_w :
    from_ONS [⟨some "2013", [PyVal.VFloat 1]⟩] "z" = .keyError ∧
    ONSResult.keyError ≠ .noData ∧
    ONSResult.keyError ≠ .series (.dates []) [] :=
  from_ONS_unknown_freq_keyError [⟨some "2013", [PyVal.VFloat 1]⟩] "z"
    (.dates []) [] (by decide) (by decide) (by decide)

end Pyscraper
